import Mathlib

/-!
Shallow embedding of the Mafia game server (`src/server.js`).

The server keeps, per room, a mutable `game` object holding the players
(a string-keyed object, i.e. an insertion-ordered association list), the
coarse `status` (`waiting` / `playing` / `finished`), the fine `phase`
(`null` / `roleReveal` / `night` / `day`), the pending `nightActions` and
`votes`, the host id and the role settings.  Every socket handler is
modelled as a pure function from the looked-up room (an `Option Game`,
`none` when `games[rId]` is undefined) and the message payload to the new
room state together with the list of emitted outputs.  Deferred
`setTimeout` effects (staggered role reveal unicasts, the delayed
night-begin broadcasts) are not part of the synchronous handler and are
omitted; they are noted in comments at the point where the source
schedules them.  `Date.now()` is modelled by an explicit `now : Nat`
parameter, `uuidv4()` by an explicit `freshId : String` parameter, and the
biased random shuffle `roles.sort(() => Math.random() - 0.5)` by an
explicit `shuffle : List Role -> List Role` parameter (a JS `sort` always
returns a permutation of its input, whatever the comparator does).
-/

namespace MafiaServer

/-- The four role strings used by the server. -/
inductive Role where
  | Mafia
  | Detective
  | Doctor
  | Villager
deriving DecidableEq

/-- A player object as created by the `createOrJoinRoom` handler
(`playerId`, `socketId`, `name`, `role`, `alive`, `ready`, `joinedAt`). -/
structure Player where
  playerId : String
  socketId : String
  name : String
  role : Option Role
  alive : Bool
  ready : Bool
  joinedAt : Nat
deriving DecidableEq

/-- The role-count configuration (`mafiaCount`, `detectiveCount`,
`doctorCount`, `villagerCount`); JS numbers that may be negative, so `Int`. -/
structure RoleSettings where
  mafiaCount : Int
  detectiveCount : Int
  doctorCount : Int
  villagerCount : Int
deriving DecidableEq

/-- The `game.status` value. -/
inductive Status where
  | waiting
  | playing
  | finished
deriving DecidableEq

/-- The `game.phase` value (the JS `null` is `Option.none`). -/
inductive Phase where
  | roleReveal
  | night
  | day
deriving DecidableEq

/-- A night-action record `{ actionType, targetId, timestamp }`. -/
structure NightAction where
  actionType : String
  targetId : String
  timestamp : Nat
deriving DecidableEq

/-- A room's state (`games[rId]`).  The string-keyed JS objects
(`players`, `nightActions`, `votes`) are insertion-ordered association
lists: updating an existing key keeps its position, a new key is appended. -/
structure Game where
  players : List (String × Player)
  status : Status
  phase : Option Phase
  nightActions : List (String × NightAction)
  votes : List (String × String)
  hostId : String
  lastActive : Nat
  createdAt : Nat
  roleSettings : RoleSettings
deriving DecidableEq

/-- Events emitted by the server.  Payload fields not needed by any claim
(durations, emojis, the `roleData` descriptions) are omitted. -/
inductive Event where
  | lobbyUpdate : List (String × Player) → String → RoleSettings → Event
  | errorMsg : String → Event
  | gameStarting : Event
  | nightBegins : Event
  | dayBegins : List (String × Player) → List String → Event
  | playerEliminated : String → String → Option Role → Option Nat → Event
  | gameOver : String → List (String × Option Role) → Event
  | revealRoles : List (String × String × Option Role) → Event
  | voteUpdate : List (String × Nat) → Event
  | actionConfirmed : String → Event
  | investigationResult : String → String → Bool → Event
  | hostAssigned : String → Event
deriving DecidableEq

/-- Delivery of an event or a callback result: `broadcast` is
`io.to(roomId).emit`, `toSender` is `socket.emit` (the originating
connection only), `toSocket` is `io.sockets.sockets.get(sid).emit`,
and the `cb…` constructors are the acknowledgement callbacks. -/
inductive Out where
  | broadcast : Event → Out
  | toSender : Event → Out
  | toSocket : String → Event → Out
  | cbJoin : String → String → Out
  | cbSettings : RoleSettings → Out
  | cbErr : String → Out
deriving DecidableEq

/-- Is this output a `playerEliminated` broadcast? -/
def Out.isElimination : Out → Bool
  | .broadcast (.playerEliminated _ _ _ _) => true
  | _ => false

/-! ### Association-list primitives for string-keyed JS objects -/

/-- Lookup `obj[k]` (first — and in a JS object, only — binding of `k`). -/
def alookup (k : String) : List (String × α) → Option α
  | [] => none
  | kv :: rest => if kv.1 = k then some kv.2 else alookup k rest

/-- In-place update of the value at key `k` (JS assignment to an existing
key keeps its insertion position). -/
def aupdate (k : String) (f : α → α) (l : List (String × α)) : List (String × α) :=
  l.map fun kv => if kv.1 = k then (kv.1, f kv.2) else kv

/-- Assignment `obj[k] = v`: overwrite in place when the key exists, append otherwise. -/
def aupsert (k : String) (v : α) (l : List (String × α)) : List (String × α) :=
  if (alookup k l).isSome then aupdate k (fun _ => v) l else l ++ [(k, v)]

/-- JS `Set.add`: JS sets de-duplicate, keeping first-insertion order. -/
def setAdd (l : List String) (x : String) : List String :=
  if x ∈ l then l else l ++ [x]

/-! ### Pure helper functions of the server -/

/-- ASCII whitespace, the common core of what ECMAScript
`String.prototype.trim` strips. -/
def isSpaceChar (c : Char) : Bool :=
  c = ' ' ∨ c = '\t' ∨ c = '\n' ∨ c = '\r'

/-- JS `String.prototype.trim()`: strip leading and trailing whitespace. -/
def jsTrim (s : String) : String :=
  ⟨(((s.data.dropWhile isSpaceChar).reverse.dropWhile isSpaceChar).reverse)⟩

/-- JS `String.prototype.toUpperCase()` (ASCII range). -/
def jsToUpper (s : String) : String :=
  ⟨s.data.map Char.toUpper⟩

/-- The `safeRoomId` helper: trim and upper-case the user-supplied room id. -/
def safeRoomId (s : String) : String :=
  jsToUpper (jsTrim s)

/-- The `getDefaultRoleSettings()` defaults. -/
def getDefaultRoleSettings : RoleSettings :=
  { mafiaCount := 1, detectiveCount := 1, doctorCount := 1, villagerCount := 1 }

/-- The `validateRoleSettings(settings, playerCount)` check: returns `some message`
when invalid (`valid: false`), `none` when valid, checking the conditions
in the source's order. -/
def validateRoleSettings (s : RoleSettings) (playerCount : Int) : Option String :=
  let totalRequested := s.mafiaCount + s.detectiveCount + s.doctorCount
  if playerCount < totalRequested then
    some ("Too many special roles requested. You have " ++ toString playerCount ++
      " players but requested " ++ toString totalRequested ++ " special roles.")
  else if s.mafiaCount < 1 then
    some "You need at least 1 Mafia member."
  else if s.detectiveCount < 0 ∨ s.doctorCount < 0 then
    some "Role counts cannot be negative."
  else
    none

/-- The deterministic part of `assignRoles`: the role list built before the
random shuffle.  Each `for` loop pushes `min(count, remainingCapacity)`
copies (a negative bound runs zero iterations, hence `Int.toNat`), the
`while` loop fills with Villagers up to `playerCount`, and the final trim
(`roles.length = playerCount`) is the `List.take`. -/
def buildRoles (s : RoleSettings) (playerCount : Nat) : List Role :=
  let mafia := List.replicate (min s.mafiaCount (playerCount : Int)).toNat Role.Mafia
  let detective :=
    List.replicate (min s.detectiveCount ((playerCount : Int) - mafia.length)).toNat Role.Detective
  let roles := mafia ++ detective
  let doctor :=
    List.replicate (min s.doctorCount ((playerCount : Int) - roles.length)).toNat Role.Doctor
  let roles := roles ++ doctor
  let roles := roles ++ List.replicate (playerCount - roles.length) Role.Villager
  roles.take playerCount

/-- The `assignRoles(game, roomId)` function: build the role multiset from
`game.roleSettings` (always set: the room initializer and
`updateRoleSettings` both store settings) and shuffle it.  The source's
`roles.sort(() => Math.random() - 0.5)` is the abstract `shuffle`
parameter. -/
def assignRoles (g : Game) (shuffle : List Role → List Role) : List Role :=
  shuffle (buildRoles g.roleSettings g.players.length)

/-- The `alivePlayers.length` count of `checkWinConditions`: the number of living
players. -/
def livingCount (g : Game) : Nat :=
  (g.players.filter fun kv => kv.2.alive).length

/-- The `mafiaAlive` count of `checkWinConditions`: the number of living Mafia. -/
def livingMafiaCount (g : Game) : Nat :=
  ((g.players.filter fun kv => kv.2.alive).filter fun kv =>
    kv.2.role = some Role.Mafia).length

/-- The `checkWinConditions(game, roomId)` evaluation: no-op on a finished game; else
count living Mafia against the other living players
(`villagersAlive = alivePlayers.length - mafiaAlive`), and on a win emit
`gameOver` (winner plus every player's final role) and `revealRoles`
(every player's name and role, keyed by `player.playerId`), then set
`status = finished` and `phase = null`. -/
def checkWinConditions (g : Game) : Game × List Out :=
  if g.status = Status.finished then (g, [])
  else
    let mafiaAlive := livingMafiaCount g
    let villagersAlive := livingCount g - mafiaAlive
    let winner : Option String :=
      if mafiaAlive = 0 then some "Villagers"
      else if villagersAlive ≤ mafiaAlive then some "Mafia"
      else none
    match winner with
    | none => (g, [])
    | some w =>
      let finalRoles := g.players.map fun kv => (kv.1, kv.2.role)
      let reveal := g.players.map fun kv => (kv.2.playerId, kv.2.name, kv.2.role)
      ({ g with status := Status.finished, phase := none },
        [Out.broadcast (Event.gameOver w finalRoles),
         Out.broadcast (Event.revealRoles reveal)])

/-! ### Night resolution (`processNightActions`) -/

/-- The `for … of Object.entries(game.nightActions)` loop of
`processNightActions`: walk the entries, skip entries whose actor is
missing or dead (`continue`), add the target of a living Mafia's `kill`
to the kill set and the target of a living Doctor's `save` to the save
set. -/
def collectNight (ps : List (String × Player)) :
    List (String × NightAction) → List String × List String → List String × List String
  | [], acc => acc
  | (pid, a) :: rest, (ks, ss) =>
    match alookup pid ps with
    | none => collectNight ps rest (ks, ss)
    | some actor =>
      if actor.alive = false then collectNight ps rest (ks, ss)
      else
        let ks' := if actor.role = some Role.Mafia ∧ a.actionType = "kill"
          then setAdd ks a.targetId else ks
        let ss' := if actor.role = some Role.Doctor ∧ a.actionType = "save"
          then setAdd ss a.targetId else ss
        collectNight ps rest (ks', ss')

/-- The `kills` set of `processNightActions`. -/
def nightKillSet (g : Game) : List String :=
  (collectNight g.players g.nightActions ([], [])).1

/-- The `saves` set of `processNightActions`. -/
def nightSaveSet (g : Game) : List String :=
  (collectNight g.players g.nightActions ([], [])).2

/-- The kill-set members that actually die: not saved, and an existing,
living player (`!saves.has(targetId) && game.players[targetId] &&
game.players[targetId].alive`). -/
def nightKilledIds (g : Game) : List String :=
  (nightKillSet g).filter fun t =>
    if t ∈ nightSaveSet g then false
    else match alookup t g.players with
      | some p => p.alive
      | none => false

/-- The `killedPlayers` name list accumulated by the kill loop. -/
def nightKilledNames (g : Game) : List String :=
  (nightKilledIds g).filterMap fun t => (alookup t g.players).map Player.name

/-- The part of `processNightActions` up to (and including) the `dayBegins` broadcast:
kill every member of `nightKilledIds` (emitting an elimination broadcast
each), clear `nightActions`, set `phase = "day"`, update `lastActive`, and
broadcast `dayBegins` with the post-kill player map and the names killed
tonight. -/
def nightResolutionCore (g : Game) (now : Nat) : Game × List Out :=
  let killedIds := nightKilledIds g
  let players' := g.players.map fun kv =>
    (kv.1, if kv.1 ∈ killedIds then { kv.2 with alive := false } else kv.2)
  let elimOuts := killedIds.filterMap fun t =>
    (alookup t g.players).map fun p =>
      Out.broadcast (Event.playerEliminated t p.name p.role none)
  let mid := { g with
    players := players'
    nightActions := []
    phase := some Phase.day
    lastActive := now }
  (mid, elimOuts ++ [Out.broadcast (Event.dayBegins mid.players (nightKilledNames g))])

/-- The full `processNightActions(game, roomId)`: the kill/save resolution followed
by the `checkWinConditions` call on its last line. -/
def processNightActions (g : Game) (now : Nat) : Game × List Out :=
  ((checkWinConditions (nightResolutionCore g now).1).1,
   (nightResolutionCore g now).2 ++ (checkWinConditions (nightResolutionCore g now).1).2)

/-! ### Day-vote resolution (`processDayVotes`) -/

/-- Increment a tally key (`tally[tId] = (tally[tId] || 0) + 1`). -/
def bumpTally (k : String) (l : List (String × Nat)) : List (String × Nat) :=
  if (alookup k l).isSome then aupdate k (· + 1) l else l ++ [(k, 1)]

/-- The vote tally: fold over the vote values in insertion order (both
`processDayVotes` and the live tally in the `dayVote` handler build it
this way). -/
def tallyVotes (votes : List (String × String)) : List (String × Nat) :=
  votes.foldl (fun acc kv => bumpTally kv.2 acc) []

/-- The JS `Math.max(...Object.values(tally))` maximum.  On an empty tally the JS
expression is `-Infinity` and no key matches it; folding from `0` gives
the same empty candidate set, since every actual tally value is ≥ 1. -/
def maxTally (tally : List (String × Nat)) : Nat :=
  (tally.map Prod.snd).foldl max 0

/-- The targets achieving the maximum tally
(`Object.keys(tally).filter(pid => tally[pid] === maxVotes)`). -/
def dayCandidates (tally : List (String × Nat)) : List String :=
  (tally.filter fun kv => kv.2 = maxTally tally).map Prod.fst

/-- The `eliminatedPlayer` of `processDayVotes`: the unique maximum-tally
target when there is exactly one, `null` otherwise. -/
def dayEliminated (g : Game) : Option String :=
  if (dayCandidates (tallyVotes g.votes)).length = 1 then
    (dayCandidates (tallyVotes g.votes)).head?
  else none

/-- The part of `processDayVotes` up to (and excluding) the `checkWinConditions` call:
tally the votes; when exactly one target holds the maximum and that target
is an existing, living player, kill it and broadcast `playerEliminated`
with its vote count; on a tie (or a dead/unknown unique target) change no
liveness; then clear `votes`, set `phase = "night"` and update
`lastActive`. -/
def dayResolutionCore (g : Game) (now : Nat) : Game × List Out :=
  let tally := tallyVotes g.votes
  let step : List (String × Player) × List Out :=
    match dayEliminated g with
    | none => (g.players, [])
    | some t =>
      match alookup t g.players with
      | none => (g.players, [])
      | some p =>
        if p.alive then
          (aupdate t (fun q => { q with alive := false }) g.players,
           [Out.broadcast (Event.playerEliminated t p.name p.role (alookup t tally))])
        else (g.players, [])
  ({ g with players := step.1, votes := [], phase := some Phase.night, lastActive := now },
   step.2)

/-- The full `processDayVotes(game, roomId)`: the tally resolution followed by the
`checkWinConditions` call.  The trailing `setTimeout` that broadcasts the
next `nightBegins` when the game is still `playing` is a deferred effect
and is omitted. -/
def processDayVotes (g : Game) (now : Nat) : Game × List Out :=
  ((checkWinConditions (dayResolutionCore g now).1).1,
   (dayResolutionCore g now).2 ++ (checkWinConditions (dayResolutionCore g now).1).2)

/-! ### Socket handlers

Each handler takes the result of the `games[safeRoomId(roomId)]` lookup
(`none` when the room does not exist) plus the message payload, and
returns the new value to store at that key (`none` keeps the room
absent) together with the emitted outputs. -/

/-- The resolution `playerId || uuidv4()`: an omitted or empty (falsy) id is replaced by
a fresh uuid. -/
def resolvePlayerId (playerIdOpt : Option String) (freshId : String) : String :=
  match playerIdOpt with
  | none => freshId
  | some s => if s = "" then freshId else s

/-- The sanitization `String(name || "Player").trim() || "Player"`. -/
def sanitizeName (name : String) : String :=
  let t := jsTrim (if name = "" then "Player" else name)
  if t = "" then "Player" else t

/-- The `createOrJoinRoom` handler: create the room if absent (the creator
becomes host), then — in this order — (1) if some player already holds
this connection's socket id, update that player's `socketId` and `name`
(the `forEach` keeps the last match); (2) else if the resolved player id
is already a key, update that player's `socketId` and `name`; (3) else
append a brand-new player with `role = null`, `alive = true`,
`ready = false`.  Finally update `lastActive`, answer the callback with
the resolved player id and host id, and broadcast a lobby update.  (The
`if (!pName)` guard in the source is unreachable: `sanitizeName` never
returns an empty string.) -/
def createOrJoinRoom (gOpt : Option Game) (socketId name : String)
    (playerIdOpt : Option String) (freshId : String) (now : Nat) :
    Game × List Out :=
  let pId := resolvePlayerId playerIdOpt freshId
  let pName := sanitizeName name
  let g0 : Game :=
    match gOpt with
    | some g => g
    | none =>
      { players := []
        status := Status.waiting
        phase := none
        nightActions := []
        votes := []
        hostId := pId
        lastActive := now
        createdAt := now
        roleSettings := getDefaultRoleSettings }
  let existingBySocket :=
    g0.players.foldl (fun acc kv => if kv.2.socketId = socketId then some kv.1 else acc) none
  let players' :=
    match existingBySocket with
    | some epid =>
      aupdate epid (fun p => { p with socketId := socketId, name := pName }) g0.players
    | none =>
      if (alookup pId g0.players).isSome then
        aupdate pId (fun p => { p with socketId := socketId, name := pName }) g0.players
      else
        g0.players ++ [(pId,
          { playerId := pId
            socketId := socketId
            name := pName
            role := none
            alive := true
            ready := false
            joinedAt := now })]
  let g1 := { g0 with players := players', lastActive := now }
  (g1, [Out.cbJoin pId g1.hostId,
        Out.broadcast (Event.lobbyUpdate g1.players g1.hostId g1.roleSettings)])

/-- The committed role settings of `updateRoleSettings`:
`Math.max(lo, requested || 1)` per field — a requested count of `0` is
falsy (`0 || 1` is `1`), so it is coerced to `1`. -/
def coercedSettings (rs : RoleSettings) : RoleSettings :=
  { mafiaCount := max 1 (if rs.mafiaCount = 0 then 1 else rs.mafiaCount)
    detectiveCount := max 0 (if rs.detectiveCount = 0 then 1 else rs.detectiveCount)
    doctorCount := max 0 (if rs.doctorCount = 0 then 1 else rs.doctorCount)
    villagerCount := max 0 (if rs.villagerCount = 0 then 1 else rs.villagerCount) }

/-- The `updateRoleSettings` handler: room must exist and the sender must
be the host (there is no `status` check in the source); validate against
the current player count; on success store `coercedSettings`, update
`lastActive`, broadcast the lobby update and answer the callback. -/
def updateRoleSettings (gOpt : Option Game) (playerId : String)
    (rs : RoleSettings) (now : Nat) : Option Game × List Out :=
  match gOpt with
  | none => (none, [Out.cbErr "Room not found"])
  | some g =>
    if g.hostId ≠ playerId then
      (some g, [Out.cbErr "Only the host can update role settings"])
    else
      match validateRoleSettings rs (g.players.length : Int) with
      | some msg => (some g, [Out.cbErr msg])
      | none =>
        let newRs : RoleSettings := coercedSettings rs
        let g' := { g with roleSettings := newRs, lastActive := now }
        (some g',
         [Out.broadcast (Event.lobbyUpdate g'.players g'.hostId newRs),
          Out.cbSettings newRs])

/-- The `playerReady` handler: silently ignored when the room or player is
unknown (a `console.log` only); otherwise set the player's `ready` flag,
update `lastActive` and broadcast the lobby update.  There is no `status`
check in the source. -/
def playerReady (gOpt : Option Game) (playerId : String) (ready : Bool)
    (now : Nat) : Option Game × List Out :=
  match gOpt with
  | none => (none, [])
  | some g =>
    if (alookup playerId g.players).isSome = false then (some g, [])
    else
      let g' := { g with
        players := aupdate playerId (fun p => { p with ready := ready }) g.players
        lastActive := now }
      (some g',
       [Out.broadcast (Event.lobbyUpdate g'.players g'.hostId g'.roleSettings)])

/-- The `startGame` handler: checks, in order, room existence, sender is
host, at least 3 players, every player ready, and valid role settings —
there is no `status` check in the source.  Each failure unicasts one
`errorMsg` to the sender and leaves the room untouched.  On success it
broadcasts `gameStarting`, assigns the shuffled roles positionally to the
players (`role := roles[idx]`, `alive := true`), sets
`status = "playing"`, `phase = "roleReveal"`, clears `nightActions` and
`votes` and updates `lastActive`.  The staggered per-player
`roleAssigned` unicasts and the 5-second `nightBegins` transition are
`setTimeout`-deferred and omitted. -/
def startGame (gOpt : Option Game) (playerId : String)
    (shuffle : List Role → List Role) (now : Nat) : Option Game × List Out :=
  match gOpt with
  | none => (none, [Out.toSender (Event.errorMsg "Room not found")])
  | some g =>
    if g.hostId ≠ playerId then
      (some g, [Out.toSender (Event.errorMsg "Only the host can start the game")])
    else if g.players.length < 3 then
      (some g, [Out.toSender (Event.errorMsg "Need at least 3 players to start")])
    else if (g.players.all fun kv => kv.2.ready) = false then
      let notReady := (g.players.filter fun kv => kv.2.ready = false).map fun kv => kv.2.name
      (some g, [Out.toSender (Event.errorMsg ("Waiting for: " ++ String.intercalate ", " notReady))])
    else
      match validateRoleSettings g.roleSettings (g.players.length : Int) with
      | some msg => (some g, [Out.toSender (Event.errorMsg msg)])
      | none =>
        let roles := assignRoles g shuffle
        let players' := g.players.enum.map fun ikv =>
          (ikv.2.1, { ikv.2.2 with role := roles[ikv.1]?, alive := true })
        let g' := { g with
          players := players'
          status := Status.playing
          phase := some Phase.roleReveal
          nightActions := []
          votes := []
          lastActive := now }
        (some g', [Out.broadcast Event.gameStarting])

/-- The `nightAction` handler: silently ignored (a `console.log` only)
unless the room exists, `phase = "night"` and the actor is an existing,
living player; a second submission in the same night is rejected with a
unicast `errorMsg`; otherwise record `{actionType, targetId, timestamp}`
under the actor's id (no role check: any living player's action is
stored), confirm to the sender, answer a Detective's `investigate`
immediately and privately, and — when the number of recorded actions has
reached the number of living non-Villager players — run
`processNightActions` synchronously. -/
def nightAction (gOpt : Option Game) (playerId actionType targetId : String)
    (now : Nat) : Option Game × List Out :=
  match gOpt with
  | none => (none, [])
  | some g =>
    match alookup playerId g.players with
    | none => (some g, [])
    | some actor =>
      if g.phase ≠ some Phase.night ∨ actor.alive = false then (some g, [])
      else if (alookup playerId g.nightActions).isSome then
        (some g, [Out.toSender (Event.errorMsg "You've already submitted your action for this night.")])
      else
        let g1 : Game := { g with nightActions :=
          g.nightActions ++ [(playerId, ⟨actionType, targetId, now⟩)] }
        let confirm := Out.toSender (Event.actionConfirmed actionType)
        let investigate :=
          if actor.role = some Role.Detective ∧ actionType = "investigate" then
            match alookup targetId g1.players with
            | some target =>
              [Out.toSender (Event.investigationResult targetId target.name
                (target.role = some Role.Mafia))]
            | none => []
          else []
        let alivePlayers := g1.players.filter fun kv => kv.2.alive
        let nightRolePlayers := alivePlayers.filter fun kv => kv.2.role ≠ some Role.Villager
        if nightRolePlayers.length ≤ g1.nightActions.length then
          (some (processNightActions g1 now).1,
           confirm :: investigate ++ (processNightActions g1 now).2)
        else
          (some g1, confirm :: investigate)

/-- The `dayVote` handler: silently ignored unless the room exists,
`phase = "day"` and the voter is an existing, living player; the vote is
an overwrite (`game.votes[playerId] = targetId`, no duplicate-vote
error); a live tally is broadcast after every vote; when the number of
distinct voters has reached the number of living players,
`processDayVotes` runs synchronously. -/
def dayVote (gOpt : Option Game) (playerId targetId : String) (now : Nat) :
    Option Game × List Out :=
  match gOpt with
  | none => (none, [])
  | some g =>
    match alookup playerId g.players with
    | none => (some g, [])
    | some voter =>
      if g.phase ≠ some Phase.day ∨ voter.alive = false then (some g, [])
      else
        let g1 : Game := { g with votes := aupsert playerId targetId g.votes }
        let tallyOut := Out.broadcast (Event.voteUpdate (tallyVotes g1.votes))
        let alivePlayers := g1.players.filter fun kv => kv.2.alive
        if alivePlayers.length ≤ g1.votes.length then
          (some (processDayVotes g1 now).1, tallyOut :: (processDayVotes g1 now).2)
        else
          (some g1, [tallyOut])

/-! ### The room registry (`games`) -/

/-- The module-scoped `games` object: room id → game. -/
def Registry := List (String × Game)

/-- Store a handler's result back into the registry: `none` leaves the key
absent (or deletes it), `some` writes it. -/
def setRoom (k : String) (v : Option Game) (r : Registry) : Registry :=
  match v with
  | none => List.filter (fun kv => kv.1 ≠ k) r
  | some g => aupsert k g r

/-- Run a per-room handler against the registry the way every socket
handler does: normalize the room id, look the room up, and store the
result back under the same key.  Rooms under any other key are untouched. -/
def onRegistry (roomId : String) (h : Option Game → Option Game × List Out)
    (r : Registry) : Registry × List Out :=
  let rId := safeRoomId roomId
  let res := h (alookup rId r)
  (setRoom rId res.1 r, res.2)

/-! ### Lemmas about the association-list primitives -/

theorem alookup_aupdate (k k' : String) (f : α → α) (l : List (String × α)) :
    alookup k (aupdate k' f l) = if k' = k then (alookup k l).map f else alookup k l := by
  induction l with
  | nil => simp [alookup, aupdate]
  | cons kv rest ih =>
    simp only [aupdate, List.map_cons] at *
    by_cases h1 : kv.1 = k' <;> by_cases h2 : kv.1 = k <;> by_cases h3 : k' = k <;>
      simp_all [alookup]

theorem alookup_append (k : String) (l₁ l₂ : List (String × α)) :
    alookup k (l₁ ++ l₂) =
      match alookup k l₁ with
      | some v => some v
      | none => alookup k l₂ := by
  induction l₁ with
  | nil => simp [alookup]
  | cons kv rest ih =>
    by_cases h : kv.1 = k
    · simp [alookup, h]
    · simp [alookup, h, ih]

theorem alookup_aupsert_ne (k k' : String) (v : α) (l : List (String × α))
    (h : k' ≠ k) : alookup k (aupsert k' v l) = alookup k l := by
  unfold aupsert
  split
  · rw [alookup_aupdate, if_neg h]
  · rw [alookup_append]
    cases hl : alookup k l
    · simp [alookup, h]
    · simp

theorem alookup_filter_ne (k k' : String) (l : List (String × α)) (h : k ≠ k') :
    alookup k (List.filter (fun kv => kv.1 ≠ k') l) = alookup k l := by
  induction l with
  | nil => simp [alookup]
  | cons kv rest ih =>
    by_cases h1 : kv.1 = k'
    · have hkk : ¬ k' = k := fun hh => h hh.symm
      simp_all [alookup, List.filter]
    · by_cases h2 : kv.1 = k <;> simp_all [alookup, List.filter]

theorem aupdate_length (k : String) (f : α → α) (l : List (String × α)) :
    (aupdate k f l).length = l.length := by
  simp [aupdate]

theorem aupdate_keys (k : String) (f : α → α) (l : List (String × α)) :
    (aupdate k f l).map Prod.fst = l.map Prod.fst := by
  induction l with
  | nil => rfl
  | cons kv rest ih =>
    by_cases h : kv.1 = k <;> simp [aupdate, h] <;> simpa [aupdate] using ih

theorem mem_setAdd {l : List String} {x y : String} :
    y ∈ setAdd l x ↔ y ∈ l ∨ y = x := by
  unfold setAdd
  split
  · constructor
    · exact Or.inl
    · rintro (h | rfl)
      · exact h
      · assumption
  · simp

/-! ### Characterizing the night kill/save sets -/

/-- Does this `nightActions` entry contribute a Mafia kill on target `t`,
given the player map `ps`?  (The actor must exist, be alive, be Mafia,
and have submitted `actionType = "kill"` against `t`.) -/
def entryKillsOn (ps : List (String × Player)) (t : String)
    (e : String × NightAction) : Bool :=
  match alookup e.1 ps with
  | some actor =>
    actor.alive && decide (actor.role = some Role.Mafia) &&
      decide (e.2.actionType = "kill") && decide (e.2.targetId = t)
  | none => false

/-- Does this `nightActions` entry contribute a Doctor save on target `t`? -/
def entrySavesOn (ps : List (String × Player)) (t : String)
    (e : String × NightAction) : Bool :=
  match alookup e.1 ps with
  | some actor =>
    actor.alive && decide (actor.role = some Role.Doctor) &&
      decide (e.2.actionType = "save") && decide (e.2.targetId = t)
  | none => false

/-- Target `t` was submitted as a kill target by at least one living Mafia actor. -/
def mafiaKillTargeted (g : Game) (t : String) : Prop :=
  ∃ e ∈ g.nightActions, entryKillsOn g.players t e = true

/-- Target `t` was submitted as a save target by at least one living Doctor actor. -/
def doctorSaveTargeted (g : Game) (t : String) : Prop :=
  ∃ e ∈ g.nightActions, entrySavesOn g.players t e = true

instance (g : Game) (t : String) : Decidable (mafiaKillTargeted g t) :=
  List.decidableBEx _ g.nightActions

instance (g : Game) (t : String) : Decidable (doctorSaveTargeted g t) :=
  List.decidableBEx _ g.nightActions

theorem collectNight_fst_mem (ps : List (String × Player)) :
    ∀ (es : List (String × NightAction)) (ks ss : List String) (t : String),
      t ∈ (collectNight ps es (ks, ss)).1 ↔
        t ∈ ks ∨ ∃ e ∈ es, entryKillsOn ps t e = true := by
  intro es
  induction es with
  | nil => intro ks ss t; simp [collectNight]
  | cons e rest ih =>
    intro ks ss t
    obtain ⟨pid, a⟩ := e
    rw [collectNight]
    cases hA : alookup pid ps with
    | none =>
      dsimp only
      rw [ih]
      simp [entryKillsOn, hA]
    | some actor =>
      dsimp only
      by_cases halive : actor.alive = false
      · rw [if_pos halive, ih]
        simp [entryKillsOn, hA, halive]
      · rw [if_neg halive]
        rw [ih]
        by_cases hcond : actor.role = some Role.Mafia ∧ a.actionType = "kill"
        · rw [if_pos hcond]
          rw [mem_setAdd]
          constructor
          · rintro ((h | rfl) | h)
            · exact Or.inl h
            · refine Or.inr ⟨(pid, a), List.mem_cons_self _ _, ?_⟩
              simp [entryKillsOn, hA, hcond.1, hcond.2,
                Bool.ne_false_iff.mp halive]
            · obtain ⟨e', he', hk⟩ := h
              exact Or.inr ⟨e', List.mem_cons_of_mem _ he', hk⟩
          · rintro (h | ⟨e', he', hk⟩)
            · exact Or.inl (Or.inl h)
            · rcases List.mem_cons.mp he' with rfl | hmem
              · refine Or.inl (Or.inr ?_)
                simp only [entryKillsOn, hA, Bool.and_eq_true, decide_eq_true_eq] at hk
                exact hk.2.symm
              · exact Or.inr ⟨e', hmem, hk⟩
        · rw [if_neg hcond]
          constructor
          · rintro (h | ⟨e', he', hk⟩)
            · exact Or.inl h
            · exact Or.inr ⟨e', List.mem_cons_of_mem _ he', hk⟩
          · rintro (h | ⟨e', he', hk⟩)
            · exact Or.inl h
            · rcases List.mem_cons.mp he' with rfl | hmem
              · exfalso
                simp only [entryKillsOn, hA, Bool.and_eq_true, decide_eq_true_eq] at hk
                exact hcond ⟨hk.1.1.2, hk.1.2⟩
              · exact Or.inr ⟨e', hmem, hk⟩

theorem collectNight_snd_mem (ps : List (String × Player)) :
    ∀ (es : List (String × NightAction)) (ks ss : List String) (t : String),
      t ∈ (collectNight ps es (ks, ss)).2 ↔
        t ∈ ss ∨ ∃ e ∈ es, entrySavesOn ps t e = true := by
  intro es
  induction es with
  | nil => intro ks ss t; simp [collectNight]
  | cons e rest ih =>
    intro ks ss t
    obtain ⟨pid, a⟩ := e
    rw [collectNight]
    cases hA : alookup pid ps with
    | none =>
      dsimp only
      rw [ih]
      simp [entrySavesOn, hA]
    | some actor =>
      dsimp only
      by_cases halive : actor.alive = false
      · rw [if_pos halive, ih]
        simp [entrySavesOn, hA, halive]
      · rw [if_neg halive]
        rw [ih]
        by_cases hcond : actor.role = some Role.Doctor ∧ a.actionType = "save"
        · rw [if_pos hcond]
          rw [mem_setAdd]
          constructor
          · rintro ((h | rfl) | h)
            · exact Or.inl h
            · refine Or.inr ⟨(pid, a), List.mem_cons_self _ _, ?_⟩
              simp [entrySavesOn, hA, hcond.1, hcond.2,
                Bool.ne_false_iff.mp halive]
            · obtain ⟨e', he', hk⟩ := h
              exact Or.inr ⟨e', List.mem_cons_of_mem _ he', hk⟩
          · rintro (h | ⟨e', he', hk⟩)
            · exact Or.inl (Or.inl h)
            · rcases List.mem_cons.mp he' with rfl | hmem
              · refine Or.inl (Or.inr ?_)
                simp only [entrySavesOn, hA, Bool.and_eq_true, decide_eq_true_eq] at hk
                exact hk.2.symm
              · exact Or.inr ⟨e', hmem, hk⟩
        · rw [if_neg hcond]
          constructor
          · rintro (h | ⟨e', he', hk⟩)
            · exact Or.inl h
            · exact Or.inr ⟨e', List.mem_cons_of_mem _ he', hk⟩
          · rintro (h | ⟨e', he', hk⟩)
            · exact Or.inl h
            · rcases List.mem_cons.mp he' with rfl | hmem
              · exfalso
                simp only [entrySavesOn, hA, Bool.and_eq_true, decide_eq_true_eq] at hk
                exact hcond ⟨hk.1.1.2, hk.1.2⟩
              · exact Or.inr ⟨e', hmem, hk⟩

/-! ### Preservation facts about `checkWinConditions` -/

theorem checkWinConditions_players (g : Game) :
    (checkWinConditions g).1.players = g.players := by
  unfold checkWinConditions
  split
  · rfl
  · dsimp only
    split <;> rfl

theorem checkWinConditions_nightActions (g : Game) :
    (checkWinConditions g).1.nightActions = g.nightActions := by
  unfold checkWinConditions
  split
  · rfl
  · dsimp only
    split <;> rfl

theorem checkWinConditions_votes (g : Game) :
    (checkWinConditions g).1.votes = g.votes := by
  unfold checkWinConditions
  split
  · rfl
  · dsimp only
    split <;> rfl

theorem checkWinConditions_phase_or (g : Game) :
    (checkWinConditions g).1.phase = g.phase ∨
      ((checkWinConditions g).1.status = Status.finished ∧
        (checkWinConditions g).1.phase = none) := by
  unfold checkWinConditions
  split
  · exact Or.inl rfl
  · dsimp only
    split
    · exact Or.inl rfl
    · exact Or.inr ⟨rfl, rfl⟩

theorem alookup_killMap (killedIds : List String) (k : String)
    (l : List (String × Player)) :
    alookup k (l.map fun kv =>
        (kv.1, if kv.1 ∈ killedIds then { kv.2 with alive := false } else kv.2)) =
      (alookup k l).map fun p =>
        if k ∈ killedIds then { p with alive := false } else p := by
  induction l with
  | nil => rfl
  | cons kv rest ih =>
    by_cases h : kv.1 = k <;> simp_all [alookup]

theorem mem_nightKillSet (g : Game) (t : String) :
    t ∈ nightKillSet g ↔ mafiaKillTargeted g t := by
  unfold nightKillSet mafiaKillTargeted
  rw [collectNight_fst_mem]
  simp

theorem mem_nightSaveSet (g : Game) (t : String) :
    t ∈ nightSaveSet g ↔ doctorSaveTargeted g t := by
  unfold nightSaveSet doctorSaveTargeted
  rw [collectNight_snd_mem]
  simp

theorem mem_nightKilledIds (g : Game) (t : String) :
    t ∈ nightKilledIds g ↔
      mafiaKillTargeted g t ∧ ¬ doctorSaveTargeted g t ∧
        ∃ p, alookup t g.players = some p ∧ p.alive = true := by
  unfold nightKilledIds
  rw [List.mem_filter, mem_nightKillSet]
  constructor
  · rintro ⟨hk, hcond⟩
    by_cases hs : t ∈ nightSaveSet g
    · rw [if_pos hs] at hcond; cases hcond
    · rw [if_neg hs] at hcond
      refine ⟨hk, fun hd => hs ((mem_nightSaveSet g t).mpr hd), ?_⟩
      cases hp : alookup t g.players with
      | none => rw [hp] at hcond; cases hcond
      | some p => rw [hp] at hcond; exact ⟨p, rfl, hcond⟩
  · rintro ⟨hk, hs, p, hp, halive⟩
    refine ⟨hk, ?_⟩
    rw [if_neg (fun hmem => hs ((mem_nightSaveSet g t).mp hmem))]
    rw [hp]
    exact halive

theorem mem_nightKilledNames (g : Game) (s : String) :
    s ∈ nightKilledNames g ↔
      ∃ t p, alookup t g.players = some p ∧ p.alive = true ∧
        mafiaKillTargeted g t ∧ ¬ doctorSaveTargeted g t ∧ p.name = s := by
  unfold nightKilledNames
  rw [List.mem_filterMap]
  constructor
  · rintro ⟨t, ht, hmap⟩
    obtain ⟨hk, hs, p, hp, halive⟩ := (mem_nightKilledIds g t).mp ht
    rw [hp] at hmap
    simp only [Option.map_some', Option.some.injEq] at hmap
    exact ⟨t, p, hp, halive, hk, hs, hmap⟩
  · rintro ⟨t, p, hp, halive, hk, hs, hname⟩
    refine ⟨t, (mem_nightKilledIds g t).mpr ⟨hk, hs, p, hp, halive⟩, ?_⟩
    rw [hp]
    simpa using hname

/-- C1. Night resolution: when the night action round completes,
`processNightActions` runs.  Over the players alive at resolution time, a
player ends up not-alive iff its id was submitted as a kill target by at
least one living Mafia actor and was not submitted as a save target by any
living Doctor actor; afterwards `nightActions` is cleared, the resolution
sets `phase = "day"` (the trailing win evaluation can immediately end the
game, setting `status = "finished"` and `phase = null`), and the
`dayBegins` broadcast carries the (possibly empty) list of names killed
this night — a name is on that list iff it names a player killed by the
above rule. -/
theorem night_resolution_spec (g : Game) (now : Nat) :
    (∀ pid p, alookup pid g.players = some p → p.alive = true →
      ((alookup pid (processNightActions g now).1.players).map Player.alive = some false ↔
        mafiaKillTargeted g pid ∧ ¬ doctorSaveTargeted g pid)) ∧
    (processNightActions g now).1.nightActions = [] ∧
    (nightResolutionCore g now).1.phase = some Phase.day ∧
    ((processNightActions g now).1.phase = some Phase.day ∨
      ((processNightActions g now).1.status = Status.finished ∧
        (processNightActions g now).1.phase = none)) ∧
    Out.broadcast
        (Event.dayBegins (nightResolutionCore g now).1.players (nightKilledNames g)) ∈
      (processNightActions g now).2 ∧
    (∀ s, s ∈ nightKilledNames g ↔
      ∃ pid p, alookup pid g.players = some p ∧ p.alive = true ∧
        mafiaKillTargeted g pid ∧ ¬ doctorSaveTargeted g pid ∧ p.name = s) := by
  refine ⟨?_, ?_, rfl, ?_, ?_, fun s => mem_nightKilledNames g s⟩
  · intro pid p hp halive
    have hplayers : (processNightActions g now).1.players =
        (nightResolutionCore g now).1.players := checkWinConditions_players _
    have hmid : (nightResolutionCore g now).1.players =
        g.players.map fun kv =>
          (kv.1, if kv.1 ∈ nightKilledIds g then { kv.2 with alive := false } else kv.2) := rfl
    rw [hplayers, hmid, alookup_killMap, hp]
    by_cases hk : pid ∈ nightKilledIds g
    · obtain ⟨hkt, hst, _⟩ := (mem_nightKilledIds g pid).mp hk
      simp only [Option.map_some, if_pos hk]
      simpa using ⟨hkt, hst⟩
    · have hnot : ¬ (mafiaKillTargeted g pid ∧ ¬ doctorSaveTargeted g pid) := by
        rintro ⟨hkt, hst⟩
        exact hk ((mem_nightKilledIds g pid).mpr ⟨hkt, hst, p, hp, halive⟩)
      exact iff_of_false (by simp [hk, halive]) hnot
  · exact (checkWinConditions_nightActions _).trans rfl
  · rcases checkWinConditions_phase_or (nightResolutionCore g now).1 with h | h
    · exact Or.inl (h.trans rfl)
    · exact Or.inr h
  · apply List.mem_append_left
    show _ ∈ _ ++ [_]
    exact List.mem_append_right _ (List.mem_singleton_self _)

/-- Concrete game used to witness C1: the Mafia targets "B", the Doctor
saves "A"; nobody saves "B". -/
def c1Game : Game :=
  { players :=
      [("M", { playerId := "M", socketId := "sM", name := "Moe",
               role := some Role.Mafia, alive := true, ready := true, joinedAt := 0 }),
       ("D", { playerId := "D", socketId := "sD", name := "Doc",
               role := some Role.Doctor, alive := true, ready := true, joinedAt := 0 }),
       ("A", { playerId := "A", socketId := "sA", name := "Ann",
               role := some Role.Villager, alive := true, ready := true, joinedAt := 0 }),
       ("B", { playerId := "B", socketId := "sB", name := "Bob",
               role := some Role.Villager, alive := true, ready := true, joinedAt := 0 })]
    status := Status.playing
    phase := some Phase.night
    nightActions := [("M", { actionType := "kill", targetId := "B", timestamp := 0 }),
                     ("D", { actionType := "save", targetId := "A", timestamp := 0 })]
    votes := []
    hostId := "M"
    lastActive := 0
    createdAt := 0
    roleSettings := getDefaultRoleSettings }

/-- Witness for C1 at `c1Game`: "B" is Mafia-targeted and unsaved, so the
resolution leaves "B" not-alive. -/
theorem night_resolution_spec_witness :
    (alookup "B" (processNightActions c1Game 5).1.players).map Player.alive = some false :=
  ((night_resolution_spec c1Game 5).1 "B"
    { playerId := "B", socketId := "sB", name := "Bob",
      role := some Role.Villager, alive := true, ready := true, joinedAt := 0 }
    (by decide) rfl).mpr (by decide)

/-- C2. Win evaluation: over the currently-alive players, zero living
Mafia means the Villagers win; otherwise living Mafia ≥ living non-Mafia
means the Mafia win; otherwise nothing happens.  On a win the status
becomes `finished`, the phase becomes `null`, and the emitted events are a
`gameOver` carrying the winner plus every player's role and a
`revealRoles` carrying every player's name and role (alive or not: the
reveal covers the full player list).  Both elimination-producing
resolutions (`processNightActions` and `processDayVotes`) end by invoking
`checkWinConditions` on their result. -/
theorem win_evaluation_spec (g : Game) (hfin : g.status ≠ Status.finished) :
    (livingMafiaCount g = 0 →
      checkWinConditions g =
        ({ g with status := Status.finished, phase := none },
         [Out.broadcast (Event.gameOver "Villagers"
            (g.players.map fun kv => (kv.1, kv.2.role))),
          Out.broadcast (Event.revealRoles
            (g.players.map fun kv => (kv.2.playerId, kv.2.name, kv.2.role)))])) ∧
    (livingMafiaCount g ≠ 0 →
      livingCount g - livingMafiaCount g ≤ livingMafiaCount g →
      checkWinConditions g =
        ({ g with status := Status.finished, phase := none },
         [Out.broadcast (Event.gameOver "Mafia"
            (g.players.map fun kv => (kv.1, kv.2.role))),
          Out.broadcast (Event.revealRoles
            (g.players.map fun kv => (kv.2.playerId, kv.2.name, kv.2.role)))])) ∧
    (livingMafiaCount g ≠ 0 →
      livingMafiaCount g < livingCount g - livingMafiaCount g →
      checkWinConditions g = (g, [])) ∧
    (∀ kv ∈ g.players, (kv.2.playerId, kv.2.name, kv.2.role) ∈
      g.players.map fun kv2 => (kv2.2.playerId, kv2.2.name, kv2.2.role)) ∧
    (∀ now, processNightActions g now =
      ((checkWinConditions (nightResolutionCore g now).1).1,
       (nightResolutionCore g now).2 ++
         (checkWinConditions (nightResolutionCore g now).1).2)) ∧
    (∀ now, processDayVotes g now =
      ((checkWinConditions (dayResolutionCore g now).1).1,
       (dayResolutionCore g now).2 ++
         (checkWinConditions (dayResolutionCore g now).1).2)) := by
  refine ⟨?_, ?_, ?_, fun kv hkv => List.mem_map_of_mem _ hkv,
    fun now => rfl, fun now => rfl⟩
  · intro h0
    unfold checkWinConditions
    rw [if_neg hfin]
    dsimp only
    rw [if_pos h0]
  · intro h0 hle
    unfold checkWinConditions
    rw [if_neg hfin]
    dsimp only
    rw [if_neg h0, if_pos hle]
  · intro h0 hlt
    unfold checkWinConditions
    rw [if_neg hfin]
    dsimp only
    rw [if_neg h0, if_neg (by omega)]

/-- Concrete game used to witness C2: one living Mafia and one living
Villager — the spec's own example of a Mafia win. -/
def c2Game : Game :=
  { players :=
      [("M", { playerId := "M", socketId := "sM", name := "Moe",
               role := some Role.Mafia, alive := true, ready := true, joinedAt := 0 }),
       ("V", { playerId := "V", socketId := "sV", name := "Vic",
               role := some Role.Villager, alive := true, ready := true, joinedAt := 0 })]
    status := Status.playing
    phase := some Phase.day
    nightActions := []
    votes := []
    hostId := "M"
    lastActive := 0
    createdAt := 0
    roleSettings := getDefaultRoleSettings }

/-- Witness for C2 at `c2Game`: living Mafia (1) ≥ living non-Mafia (1),
so the game finishes with phase `null`. -/
theorem win_evaluation_spec_witness :
    (checkWinConditions c2Game).1.status = Status.finished ∧
      (checkWinConditions c2Game).1.phase = none := by
  have h := (win_evaluation_spec c2Game (by decide)).2.1 (by decide) (by decide)
  rw [h]
  exact ⟨rfl, rfl⟩

theorem dayEliminated_eq_some (g : Game) (t : String) :
    dayEliminated g = some t ↔ dayCandidates (tallyVotes g.votes) = [t] := by
  unfold dayEliminated
  constructor
  · intro h
    by_cases hlen : (dayCandidates (tallyVotes g.votes)).length = 1
    · rw [if_pos hlen] at h
      cases hc : dayCandidates (tallyVotes g.votes) with
      | nil => rw [hc] at hlen; simp at hlen
      | cons a tl =>
        rw [hc] at hlen h
        cases tl with
        | nil => simp only [List.head?] at h; rw [Option.some.injEq] at h; rw [h]
        | cons b tl2 => simp at hlen
    · rw [if_neg hlen] at h
      cases h
  · intro h
    rw [h]
    rfl

/-- Concrete game refuting C3 as stated: the single living player "A"
votes for the already-dead "B", so "B" is the unique maximum-tally
target, yet no elimination broadcast is emitted (the source additionally
requires the unique target to be an existing, living player). -/
def c3BadGame : Game :=
  { players :=
      [("A", { playerId := "A", socketId := "sA", name := "Ann",
               role := some Role.Villager, alive := true, ready := true, joinedAt := 0 }),
       ("B", { playerId := "B", socketId := "sB", name := "Bob",
               role := some Role.Mafia, alive := false, ready := true, joinedAt := 0 })]
    status := Status.playing
    phase := some Phase.day
    nightActions := []
    votes := [("A", "B")]
    hostId := "A"
    lastActive := 0
    createdAt := 0
    roleSettings := getDefaultRoleSettings }

/-- C3 counterexample. In `c3BadGame` exactly one target ("B") holds
the maximum tally, yet the completed day-vote resolution emits no
`playerEliminated` broadcast at all and leaves every player record
unchanged — contradicting the claim that the unique maximum-tally target
is eliminated with an elimination broadcast carrying its vote count. -/
theorem day_vote_resolution_counterexample :
    dayCandidates (tallyVotes c3BadGame.votes) = ["B"] ∧
    ((processDayVotes c3BadGame 3).2.all fun o => !o.isElimination) = true ∧
    (processDayVotes c3BadGame 3).1.players = c3BadGame.players := by
  decide

/-- C3 (amended). Completed day-vote resolution: when exactly one
target holds the maximum tally and that target is a currently-living
player of the room, that player is eliminated and an elimination
broadcast carrying its vote count is emitted; otherwise (a tie between
two or more targets, or a unique target that is dead or not in the room)
every player's alive flag is unchanged.  In all cases `votes` is cleared
and the resolution sets `phase = "night"` (the trailing win evaluation
can immediately end the game, setting `status = "finished"` and
`phase = null`). -/
theorem day_vote_resolution_amended (g : Game) (now : Nat) :
    (∀ t p, dayCandidates (tallyVotes g.votes) = [t] →
      alookup t g.players = some p → p.alive = true →
      (alookup t (processDayVotes g now).1.players).map Player.alive = some false ∧
      Out.broadcast (Event.playerEliminated t p.name p.role
        (alookup t (tallyVotes g.votes))) ∈ (processDayVotes g now).2) ∧
    ((∀ t p, dayCandidates (tallyVotes g.votes) = [t] →
        alookup t g.players = some p → p.alive = false) →
      ∀ pid q, alookup pid g.players = some q →
        (alookup pid (processDayVotes g now).1.players).map Player.alive = some q.alive) ∧
    (processDayVotes g now).1.votes = [] ∧
    (dayResolutionCore g now).1.phase = some Phase.night ∧
    ((processDayVotes g now).1.phase = some Phase.night ∨
      ((processDayVotes g now).1.status = Status.finished ∧
        (processDayVotes g now).1.phase = none)) := by
  have hplayers : (processDayVotes g now).1.players =
      (dayResolutionCore g now).1.players := checkWinConditions_players _
  refine ⟨?_, ?_, (checkWinConditions_votes _).trans rfl, rfl, ?_⟩
  · intro t p hcand hp halive
    have hel : dayEliminated g = some t := (dayEliminated_eq_some g t).mpr hcand
    have hstep : dayResolutionCore g now =
        ({ g with players := aupdate t (fun q => { q with alive := false }) g.players,
                  votes := [], phase := some Phase.night, lastActive := now },
         [Out.broadcast (Event.playerEliminated t p.name p.role
           (alookup t (tallyVotes g.votes)))]) := by
      unfold dayResolutionCore
      rw [hel]
      dsimp only
      rw [hp]
      dsimp only
      rw [if_pos halive]
    constructor
    · rw [hplayers, hstep]
      dsimp only
      rw [alookup_aupdate, if_pos rfl, hp]
      rfl
    · apply List.mem_append_left
      rw [hstep]
      exact List.mem_singleton_self _
  · intro hne pid q hq
    have hpres : (dayResolutionCore g now).1.players = g.players := by
      unfold dayResolutionCore
      cases hel : dayEliminated g with
      | none => rfl
      | some t =>
        dsimp only
        cases hp : alookup t g.players with
        | none => rfl
        | some p =>
          have hdead : p.alive = false :=
            hne t p ((dayEliminated_eq_some g t).mp hel) hp
          dsimp only
          rw [if_neg (by simp [hdead])]
      -- in every branch the player list is untouched
    rw [hplayers, hpres, hq]
    rfl
  · rcases checkWinConditions_phase_or (dayResolutionCore g now).1 with h | h
    · exact Or.inl (h.trans rfl)
    · exact Or.inr h

/-- Concrete game used to witness the amended C3: votes `{A: 2, B: 2}` —
the spec's own tie example — eliminate no one. -/
def c3TieGame : Game :=
  { players :=
      [("A", { playerId := "A", socketId := "sA", name := "Ann",
               role := some Role.Mafia, alive := true, ready := true, joinedAt := 0 }),
       ("B", { playerId := "B", socketId := "sB", name := "Bob",
               role := some Role.Villager, alive := true, ready := true, joinedAt := 0 }),
       ("C", { playerId := "C", socketId := "sC", name := "Cyd",
               role := some Role.Villager, alive := true, ready := true, joinedAt := 0 }),
       ("D", { playerId := "D", socketId := "sD", name := "Dee",
               role := some Role.Villager, alive := true, ready := true, joinedAt := 0 })]
    status := Status.playing
    phase := some Phase.day
    nightActions := []
    votes := [("A", "A"), ("B", "B"), ("C", "A"), ("D", "B")]
    hostId := "A"
    lastActive := 0
    createdAt := 0
    roleSettings := getDefaultRoleSettings }

/-- Witness for the amended C3 at the tie `{A: 2, B: 2}`: "A" stays
alive through the resolution. -/
theorem day_vote_resolution_amended_witness :
    (alookup "A" (processDayVotes c3TieGame 2).1.players).map Player.alive = some true := by
  have hne : ∀ t p, dayCandidates (tallyVotes c3TieGame.votes) = [t] →
      alookup t c3TieGame.players = some p → p.alive = false := by
    intro t p hc _
    have htwo : dayCandidates (tallyVotes c3TieGame.votes) = ["A", "B"] := by decide
    rw [htwo] at hc
    simp at hc
  exact (day_vote_resolution_amended c3TieGame 2).2.1 hne "A"
    { playerId := "A", socketId := "sA", name := "Ann",
      role := some Role.Mafia, alive := true, ready := true, joinedAt := 0 }
    (by decide)

/-- Concrete finished room used for C4: the game is over (`status =
finished`, `phase = null`) and player "A" is not ready. -/
def c4Game : Game :=
  { players :=
      [("H", { playerId := "H", socketId := "sH", name := "Hal",
               role := some Role.Mafia, alive := true, ready := true, joinedAt := 0 }),
       ("A", { playerId := "A", socketId := "sA", name := "Ann",
               role := some Role.Villager, alive := false, ready := false, joinedAt := 0 })]
    status := Status.finished
    phase := none
    nightActions := []
    votes := []
    hostId := "H"
    lastActive := 0
    createdAt := 0
    roleSettings := getDefaultRoleSettings }

/-- State of `c4Game` after the supposedly-rejected ready toggle went through. -/
def c4GameAfter : Game :=
  { c4Game with
    players :=
      [("H", { playerId := "H", socketId := "sH", name := "Hal",
               role := some Role.Mafia, alive := true, ready := true, joinedAt := 0 }),
       ("A", { playerId := "A", socketId := "sA", name := "Ann",
               role := some Role.Villager, alive := false, ready := true, joinedAt := 0 })]
    lastActive := 99 }

/-- C4 counterexample. `playerReady` has no status guard: on the
finished room `c4Game` it flips player "A"'s ready flag (and bumps
`lastActive`), so a mutating command other than leave/cleanup does change
a finished room's state. -/
theorem finished_terminal_counterexample :
    c4Game.status = Status.finished ∧
    (alookup "A" c4Game.players).map Player.ready = some false ∧
    (playerReady (some c4Game) "A" true 99).1 = some c4GameAfter ∧
    (alookup "A" c4GameAfter.players).map Player.ready = some true := by
  decide

/-- C4 (amended). Once a room is finished (`status = finished`,
`phase = null`), `submitNightAction` and `submitDayVote` are rejected
(both require a specific phase) and leave the room unchanged; but
`setReady`, `updateRoleSettings` and `startGame` are not status-guarded
and can still mutate the finished room. -/
theorem finished_terminal_amended (g : Game) (_hst : g.status = Status.finished)
    (hph : g.phase = none) :
    (∀ pid aT tId now, nightAction (some g) pid aT tId now = (some g, [])) ∧
    (∀ pid tId now, dayVote (some g) pid tId now = (some g, [])) := by
  constructor
  · intro pid aT tId now
    unfold nightAction
    dsimp only
    cases h : alookup pid g.players with
    | none => rfl
    | some actor =>
      dsimp only
      rw [if_pos (Or.inl (by rw [hph]; exact fun hc => Option.noConfusion hc))]
  · intro pid tId now
    unfold dayVote
    dsimp only
    cases h : alookup pid g.players with
    | none => rfl
    | some voter =>
      dsimp only
      rw [if_pos (Or.inl (by rw [hph]; exact fun hc => Option.noConfusion hc))]

/-- Witness for the amended C4: a night action sent to the finished
`c4Game` is rejected with no state change and no output. -/
theorem finished_terminal_amended_witness :
    nightAction (some c4Game) "H" "kill" "A" 7 = (some c4Game, []) :=
  (finished_terminal_amended c4Game rfl rfl).1 "H" "kill" "A" 7

/-- Concrete mid-game room used for C5: `status = playing`, three players
all still flagged ready from the lobby. -/
def c5Game : Game :=
  { players :=
      [("H", { playerId := "H", socketId := "sH", name := "Hal",
               role := some Role.Mafia, alive := true, ready := true, joinedAt := 0 }),
       ("A", { playerId := "A", socketId := "sA", name := "Ann",
               role := some Role.Doctor, alive := true, ready := true, joinedAt := 0 }),
       ("B", { playerId := "B", socketId := "sB", name := "Bob",
               role := some Role.Villager, alive := true, ready := true, joinedAt := 0 })]
    status := Status.playing
    phase := some Phase.night
    nightActions := []
    votes := []
    hostId := "H"
    lastActive := 0
    createdAt := 0
    roleSettings := getDefaultRoleSettings }

/-- C5 counterexample. `startGame` has no `status = waiting` guard:
on the mid-game room `c5Game` (status `playing`) the host's `startGame`
succeeds — it broadcasts `gameStarting` and restarts the game at
`phase = roleReveal` — contradicting "succeeds only when … the room
status is waiting". -/
theorem startGame_requires_waiting_counterexample :
    c5Game.status = Status.playing ∧
    (startGame (some c5Game) "H" id 9).2 = [Out.broadcast Event.gameStarting] ∧
    ((startGame (some c5Game) "H" id 9).1.map Game.status) = some Status.playing ∧
    ((startGame (some c5Game) "H" id 9).1.map Game.phase) = some (some Phase.roleReveal) := by
  decide

theorem enumFrom_assign_keys (roles : List Role) :
    ∀ (n : Nat) (l : List (String × Player)),
      ((List.enumFrom n l).map fun ikv =>
        (ikv.2.1, { ikv.2.2 with role := roles[ikv.1]?, alive := true })).map Prod.fst =
        l.map Prod.fst := by
  intro n l
  induction l generalizing n with
  | nil => rfl
  | cons kv rest ih => simp [List.enumFrom, ih]

theorem enumFrom_assign_mem (roles : List Role) :
    ∀ (n : Nat) (l : List (String × Player)), n + l.length ≤ roles.length →
      ∀ kv ∈ (List.enumFrom n l).map fun ikv =>
          (ikv.2.1, { ikv.2.2 with role := roles[ikv.1]?, alive := true }),
        kv.2.alive = true ∧ kv.2.role.isSome = true := by
  intro n l
  induction l generalizing n with
  | nil =>
    intro _ kv hkv
    simp at hkv
  | cons kv0 rest ih =>
    intro hle kv hkv
    simp only [List.enumFrom, List.map_cons, List.mem_cons] at hkv
    rcases hkv with rfl | hkv
    · refine ⟨rfl, ?_⟩
      have hn : n < roles.length := by
        simp only [List.length_cons] at hle
        omega
      simp [List.getElem?_eq_getElem hn]
    · exact ih (n + 1) (by simp only [List.length_cons] at hle; omega) kv hkv

/-- The preconditions `startGame` actually enforces: sender is host, at
least 3 players, everybody ready, role settings valid for the player
count.  (There is no `status` check.) -/
def startGameOk (g : Game) (playerId : String) : Prop :=
  g.hostId = playerId ∧ 3 ≤ g.players.length ∧
  (∀ kv ∈ g.players, kv.2.ready = true) ∧
  validateRoleSettings g.roleSettings (g.players.length : Int) = none

instance (g : Game) (pid : String) : Decidable (startGameOk g pid) := by
  unfold startGameOk
  infer_instance

/-- C5 (amended). `startGame` succeeds exactly when the requester is
the host, the player count is at least 3, every player is ready and the
role settings are valid for the player count — the room's status is *not*
checked.  On success (for any length-preserving shuffle, as a JS sort is)
every player receives a role with `alive = true`, status becomes
`playing`, phase becomes `roleReveal`, and `nightActions` and `votes` are
cleared; on any precondition violation the room state is unchanged and a
single `errorMsg` is unicast to the requester only. -/
theorem startGame_amended (g : Game) (pid : String)
    (shuffle : List Role → List Role) (now : Nat) :
    (¬ startGameOk g pid →
      ∃ m, startGame (some g) pid shuffle now =
        (some g, [Out.toSender (Event.errorMsg m)])) ∧
    (startGameOk g pid →
      (shuffle (buildRoles g.roleSettings g.players.length)).length = g.players.length →
      ∃ g', startGame (some g) pid shuffle now =
          (some g', [Out.broadcast Event.gameStarting]) ∧
        g'.status = Status.playing ∧ g'.phase = some Phase.roleReveal ∧
        g'.nightActions = [] ∧ g'.votes = [] ∧
        g'.players.length = g.players.length ∧
        g'.players.map Prod.fst = g.players.map Prod.fst ∧
        (∀ kv ∈ g'.players, kv.2.alive = true ∧ kv.2.role.isSome = true)) := by
  constructor
  · intro hno
    unfold startGame
    dsimp only
    by_cases h1 : g.hostId ≠ pid
    · simp only [if_pos h1]
      exact ⟨_, rfl⟩
    · simp only [if_neg h1]
      by_cases h2 : g.players.length < 3
      · simp only [if_pos h2]
        exact ⟨_, rfl⟩
      · simp only [if_neg h2]
        by_cases h3 : (g.players.all fun kv => kv.2.ready) = false
        · simp only [if_pos h3]
          exact ⟨_, rfl⟩
        · simp only [if_neg h3]
          cases hv : validateRoleSettings g.roleSettings (g.players.length : Int) with
          | some m =>
            simp only [hv]
            exact ⟨m, rfl⟩
          | none =>
            exact absurd
              ⟨not_not.mp h1, by omega,
               fun kv hkv => List.all_eq_true.mp (Bool.ne_false_iff.mp h3) kv hkv, hv⟩ hno
  · rintro ⟨hhost, hcount, hready, hval⟩ hlen
    unfold startGame
    dsimp only
    simp only [if_neg (show ¬ g.hostId ≠ pid by simp [hhost]),
      if_neg (show ¬ g.players.length < 3 by omega),
      if_neg (show ¬ (g.players.all fun kv => kv.2.ready) = false by
        simp [List.all_eq_true.mpr hready]),
      hval]
    refine ⟨_, rfl, rfl, rfl, rfl, rfl, ?_, ?_, ?_⟩
    · simp
    · exact enumFrom_assign_keys (assignRoles g shuffle) 0 g.players
    · refine enumFrom_assign_mem (assignRoles g shuffle) 0 g.players ?_
      have : (assignRoles g shuffle).length = g.players.length := hlen
      omega

/-- Concrete lobby used to witness the amended C5: three ready players in
a waiting room. -/
def c5wGame : Game :=
  { players :=
      [("H", { playerId := "H", socketId := "sH", name := "Hal",
               role := none, alive := true, ready := true, joinedAt := 0 }),
       ("A", { playerId := "A", socketId := "sA", name := "Ann",
               role := none, alive := true, ready := true, joinedAt := 0 }),
       ("B", { playerId := "B", socketId := "sB", name := "Bob",
               role := none, alive := true, ready := true, joinedAt := 0 })]
    status := Status.waiting
    phase := none
    nightActions := []
    votes := []
    hostId := "H"
    lastActive := 0
    createdAt := 0
    roleSettings := getDefaultRoleSettings }

/-- Witness for the amended C5: the host's `startGame` on the ready
3-player lobby `c5wGame` succeeds as described. -/
theorem startGame_amended_witness :
    ∃ g', startGame (some c5wGame) "H" id 4 =
        (some g', [Out.broadcast Event.gameStarting]) ∧
      g'.status = Status.playing ∧ g'.phase = some Phase.roleReveal ∧
      g'.nightActions = [] ∧ g'.votes = [] ∧
      g'.players.length = c5wGame.players.length ∧
      g'.players.map Prod.fst = c5wGame.players.map Prod.fst ∧
      (∀ kv ∈ g'.players, kv.2.alive = true ∧ kv.2.role.isSome = true) :=
  (startGame_amended c5wGame "H" id 4).2 (by decide) (by decide)

/-- Concrete night-phase room used for C6: "V" is a living Villager; the
living non-Villager count is 2 ("M", "D"), so a single submission does
not trigger resolution. -/
def c6Game : Game :=
  { players :=
      [("V", { playerId := "V", socketId := "sV", name := "Val",
               role := some Role.Villager, alive := true, ready := true, joinedAt := 0 }),
       ("M", { playerId := "M", socketId := "sM", name := "Moe",
               role := some Role.Mafia, alive := true, ready := true, joinedAt := 0 }),
       ("D", { playerId := "D", socketId := "sD", name := "Doc",
               role := some Role.Doctor, alive := true, ready := true, joinedAt := 0 })]
    status := Status.playing
    phase := some Phase.night
    nightActions := []
    votes := []
    hostId := "M"
    lastActive := 0
    createdAt := 0
    roleSettings := getDefaultRoleSettings }

/-- C6 counterexample. The `nightAction` handler never checks the
actor's role: the living Villager "V" submits a night action and an entry
keyed by "V" is recorded in `nightActions` — contradicting "submitting a
night action never records an entry for a Villager actor" (and hence the
claimed key invariant). -/
theorem nightActions_villager_counterexample :
    (alookup "V" c6Game.players).map Player.role = some (some Role.Villager) ∧
    ((nightAction (some c6Game) "V" "kill" "M" 0).1.map fun g => g.nightActions) =
      some [("V", { actionType := "kill", targetId := "M", timestamp := 0 })] := by
  decide

/-- C6 (amended). Submission-time contract of the two collection
handlers: `nightAction` records an entry (keyed by the actor, possibly
then consumed by an immediate resolution) exactly when the phase is
night and the actor is an existing, *living* player with no prior entry —
regardless of role, Villagers included; `dayVote` records/overwrites a
vote exactly when the phase is day and the voter is an existing, living
player.  So every key is the id of a player alive at insertion time, but
non-Villager-ness is not enforced. -/
theorem night_day_submission_amended :
    (∀ (g : Game) (pid aT tId : String) (now : Nat) (p : Player),
      alookup pid g.players = some p → p.alive = true →
      g.phase = some Phase.night → alookup pid g.nightActions = none →
      ((nightAction (some g) pid aT tId now).1 =
          some { g with nightActions :=
            g.nightActions ++ [(pid, { actionType := aT, targetId := tId, timestamp := now })] } ∨
        (nightAction (some g) pid aT tId now).1 =
          some (processNightActions { g with nightActions :=
            g.nightActions ++ [(pid, { actionType := aT, targetId := tId, timestamp := now })] } now).1)) ∧
    (∀ (g : Game) (pid aT tId : String) (now : Nat),
      (g.phase ≠ some Phase.night ∨ (∀ p, alookup pid g.players = some p → p.alive = false)) →
      nightAction (some g) pid aT tId now = (some g, [])) ∧
    (∀ (g : Game) (pid tId : String) (now : Nat) (p : Player),
      alookup pid g.players = some p → p.alive = true → g.phase = some Phase.day →
      ((dayVote (some g) pid tId now).1 = some { g with votes := aupsert pid tId g.votes } ∨
        (dayVote (some g) pid tId now).1 =
          some (processDayVotes { g with votes := aupsert pid tId g.votes } now).1)) ∧
    (∀ (g : Game) (pid tId : String) (now : Nat),
      (g.phase ≠ some Phase.day ∨ (∀ p, alookup pid g.players = some p → p.alive = false)) →
      dayVote (some g) pid tId now = (some g, [])) := by
  refine ⟨?_, ?_, ?_, ?_⟩
  · intro g pid aT tId now p hp halive hph hdup
    unfold nightAction
    dsimp only
    rw [hp]
    dsimp only
    rw [if_neg (by simp [hph, halive]), if_neg (by simp [hdup])]
    split
    · exact Or.inr rfl
    · exact Or.inl rfl
  · intro g pid aT tId now h
    unfold nightAction
    dsimp only
    cases hp : alookup pid g.players with
    | none => rfl
    | some p =>
      dsimp only
      rcases h with hph | hdead
      · rw [if_pos (Or.inl hph)]
      · rw [if_pos (Or.inr (hdead p hp))]
  · intro g pid tId now p hp halive hph
    unfold dayVote
    dsimp only
    rw [hp]
    dsimp only
    rw [if_neg (by simp [hph, halive])]
    split
    · exact Or.inr rfl
    · exact Or.inl rfl
  · intro g pid tId now h
    unfold dayVote
    dsimp only
    cases hp : alookup pid g.players with
    | none => rfl
    | some p =>
      dsimp only
      rcases h with hph | hdead
      · rw [if_pos (Or.inl hph)]
      · rw [if_pos (Or.inr (hdead p hp))]

/-- Witness for the amended C6: the living Villager "V"'s night action is
recorded (the round does not complete, so the entry is visible). -/
theorem night_day_submission_amended_witness :
    (nightAction (some c6Game) "V" "kill" "M" 0).1 =
        some { c6Game with nightActions := c6Game.nightActions ++
          [("V", { actionType := "kill", targetId := "M", timestamp := 0 })] } ∨
      (nightAction (some c6Game) "V" "kill" "M" 0).1 =
        some (processNightActions { c6Game with nightActions := c6Game.nightActions ++
          [("V", { actionType := "kill", targetId := "M", timestamp := 0 })] } 0).1 :=
  night_day_submission_amended.1 c6Game "V" "kill" "M" 0
    { playerId := "V", socketId := "sV", name := "Val",
      role := some Role.Villager, alive := true, ready := true, joinedAt := 0 }
    rfl rfl rfl rfl

/-- Concrete mid-game room used for C7: `status = playing`, three
players, host "H". -/
def c7Game : Game :=
  { players :=
      [("H", { playerId := "H", socketId := "sH", name := "Hal",
               role := some Role.Mafia, alive := true, ready := true, joinedAt := 0 }),
       ("A", { playerId := "A", socketId := "sA", name := "Ann",
               role := some Role.Villager, alive := true, ready := true, joinedAt := 0 }),
       ("B", { playerId := "B", socketId := "sB", name := "Bob",
               role := some Role.Villager, alive := true, ready := true, joinedAt := 0 })]
    status := Status.playing
    phase := some Phase.night
    nightActions := []
    votes := []
    hostId := "H"
    lastActive := 0
    createdAt := 0
    roleSettings := getDefaultRoleSettings }

/-- C7 counterexample. On the mid-game room `c7Game` (status
`playing`, not `waiting`) the host requests
`{mafiaCount: 1, detectiveCount: 0, doctorCount: 0}`: the update
*succeeds* (no status check), and the stored detective and doctor counts
are `1`, not the requested `0` (`0 || 1` is `1`) — contradicting both
"legal only … while status is waiting" and "the stored counts equal the
requested counts, including zero detective or doctor counts". -/
theorem updateRoleSettings_counterexample :
    c7Game.status = Status.playing ∧
    updateRoleSettings (some c7Game) "H"
        { mafiaCount := 1, detectiveCount := 0, doctorCount := 0, villagerCount := 1 } 5 =
      (some { c7Game with
          roleSettings :=
            { mafiaCount := 1, detectiveCount := 1, doctorCount := 1, villagerCount := 1 },
          lastActive := 5 },
       [Out.broadcast (Event.lobbyUpdate c7Game.players "H"
          { mafiaCount := 1, detectiveCount := 1, doctorCount := 1, villagerCount := 1 }),
        Out.cbSettings
          { mafiaCount := 1, detectiveCount := 1, doctorCount := 1, villagerCount := 1 }]) := by
  decide

/-- C7 (amended). `updateRoleSettings` is legal for the host in any
status (there is no `status = waiting` check); it fails with a
`ValidationError` (returned only to the caller, room unchanged) exactly
when `mafiaCount < 1`, `detectiveCount < 0`, `doctorCount < 0`, or the
three counts sum to more than the player count; otherwise the settings
are committed *coerced*: each requested count of `0` is stored as `1`
(`Math.max(lo, requested || 1)`), while requested counts ≥ 1 are stored
as given — and the committed settings are broadcast. -/
theorem updateRoleSettings_amended (g : Game) (pid : String)
    (rs : RoleSettings) (now : Nat) :
    (g.hostId ≠ pid →
      updateRoleSettings (some g) pid rs now =
        (some g, [Out.cbErr "Only the host can update role settings"])) ∧
    ((validateRoleSettings rs (g.players.length : Int)).isSome = true ↔
      (rs.mafiaCount < 1 ∨ rs.detectiveCount < 0 ∨ rs.doctorCount < 0 ∨
        (g.players.length : Int) < rs.mafiaCount + rs.detectiveCount + rs.doctorCount)) ∧
    (∀ m, g.hostId = pid → validateRoleSettings rs (g.players.length : Int) = some m →
      updateRoleSettings (some g) pid rs now = (some g, [Out.cbErr m])) ∧
    (g.hostId = pid → validateRoleSettings rs (g.players.length : Int) = none →
      updateRoleSettings (some g) pid rs now =
        (some { g with roleSettings := coercedSettings rs, lastActive := now },
         [Out.broadcast (Event.lobbyUpdate g.players g.hostId (coercedSettings rs)),
          Out.cbSettings (coercedSettings rs)]) ∧
      (rs.detectiveCount = 0 → (coercedSettings rs).detectiveCount = 1) ∧
      (rs.doctorCount = 0 → (coercedSettings rs).doctorCount = 1) ∧
      (1 ≤ rs.mafiaCount → (coercedSettings rs).mafiaCount = rs.mafiaCount) ∧
      (1 ≤ rs.detectiveCount → (coercedSettings rs).detectiveCount = rs.detectiveCount) ∧
      (1 ≤ rs.doctorCount → (coercedSettings rs).doctorCount = rs.doctorCount)) := by
  refine ⟨?_, ?_, ?_, ?_⟩
  · intro hne
    unfold updateRoleSettings
    dsimp only
    rw [if_pos hne]
  · unfold validateRoleSettings
    dsimp only
    split_ifs with h1 h2 h3 <;> simp <;> omega
  · intro m hhost hv
    unfold updateRoleSettings
    dsimp only
    rw [if_neg (by simp [hhost]), hv]
  · intro hhost hv
    refine ⟨?_, ?_, ?_, ?_, ?_, ?_⟩
    · unfold updateRoleSettings
      dsimp only
      rw [if_neg (by simp [hhost]), hv]
    · intro h
      simp [coercedSettings, h]
    · intro h
      simp [coercedSettings, h]
    · intro h
      unfold coercedSettings
      dsimp only
      rw [if_neg (by omega)]
      omega
    · intro h
      unfold coercedSettings
      dsimp only
      rw [if_neg (by omega)]
      omega
    · intro h
      unfold coercedSettings
      dsimp only
      rw [if_neg (by omega)]
      omega

/-- Witness for the amended C7: the host commits
`{mafiaCount: 2, detectiveCount: 1, doctorCount: 0}` on the 3-player room
`c7Game`; validation passes and the committed settings are the coerced
ones. -/
theorem updateRoleSettings_amended_witness :
    updateRoleSettings (some c7Game) "H"
        { mafiaCount := 2, detectiveCount := 1, doctorCount := 0, villagerCount := 0 } 3 =
      (some { c7Game with
          roleSettings := coercedSettings
            { mafiaCount := 2, detectiveCount := 1, doctorCount := 0, villagerCount := 0 },
          lastActive := 3 },
       [Out.broadcast (Event.lobbyUpdate c7Game.players c7Game.hostId (coercedSettings
          { mafiaCount := 2, detectiveCount := 1, doctorCount := 0, villagerCount := 0 })),
        Out.cbSettings (coercedSettings
          { mafiaCount := 2, detectiveCount := 1, doctorCount := 0, villagerCount := 0 })]) :=
  ((updateRoleSettings_amended c7Game "H"
      { mafiaCount := 2, detectiveCount := 1, doctorCount := 0, villagerCount := 0 } 3).2.2.2
    rfl (by decide)).1

theorem buildRoles_valid_eq (s : RoleSettings) (n : Nat)
    (h1 : ¬ ((n : Int) < s.mafiaCount + s.detectiveCount + s.doctorCount))
    (h2 : ¬ (s.mafiaCount < 1))
    (h3 : ¬ (s.detectiveCount < 0 ∨ s.doctorCount < 0)) :
    buildRoles s n =
      ((List.replicate s.mafiaCount.toNat Role.Mafia ++
        List.replicate s.detectiveCount.toNat Role.Detective) ++
        List.replicate s.doctorCount.toNat Role.Doctor) ++
        List.replicate (n - (s.mafiaCount + s.detectiveCount + s.doctorCount).toNat)
          Role.Villager := by
  unfold buildRoles
  dsimp only
  have e1 : (min s.mafiaCount (n : Int)).toNat = s.mafiaCount.toNat := by omega
  rw [e1]
  simp only [List.length_replicate]
  have e2 : (min s.detectiveCount ((n : Int) - (s.mafiaCount.toNat : Int))).toNat =
      s.detectiveCount.toNat := by omega
  rw [e2]
  simp only [List.length_append, List.length_replicate]
  have e3 : (min s.doctorCount ((n : Int) -
      ((s.mafiaCount.toNat + s.detectiveCount.toNat : Nat) : Int))).toNat =
      s.doctorCount.toNat := by omega
  rw [e3]
  have e4 : n - (s.mafiaCount.toNat + s.detectiveCount.toNat + s.doctorCount.toNat) =
      n - (s.mafiaCount + s.detectiveCount + s.doctorCount).toNat := by omega
  rw [e4]
  apply List.take_of_length_le
  simp only [List.length_append, List.length_replicate]
  omega

theorem validateRoleSettings_none_iff (s : RoleSettings) (pc : Int) :
    validateRoleSettings s pc = none ↔
      ¬ (pc < s.mafiaCount + s.detectiveCount + s.doctorCount) ∧
      ¬ (s.mafiaCount < 1) ∧ ¬ (s.detectiveCount < 0 ∨ s.doctorCount < 0) := by
  unfold validateRoleSettings
  dsimp only
  split_ifs with h1 h2 h3 <;> simp_all

/-- C8. Role assignment: for every player-id list and role settings
valid for its length, any permutation of the built role list (which is
what the source's comparator-based `sort` produces) has length exactly
the player count; contains exactly the configured Mafia, Detective and
Doctor counts (validity makes every `min(count, remainingCapacity)` cap a
no-op, so the capped counts equal the configured ones); fills all
remaining slots with Villager; and yields a role at every player index,
so each player is assigned exactly one role. -/
theorem assign_roles_spec (ids : List String) (s : RoleSettings) (shuffled : List Role)
    (hvalid : validateRoleSettings s (ids.length : Int) = none)
    (hperm : shuffled.Perm (buildRoles s ids.length)) :
    shuffled.length = ids.length ∧
    shuffled.count Role.Mafia = s.mafiaCount.toNat ∧
    shuffled.count Role.Detective = s.detectiveCount.toNat ∧
    shuffled.count Role.Doctor = s.doctorCount.toNat ∧
    shuffled.count Role.Villager =
      ids.length - (s.mafiaCount + s.detectiveCount + s.doctorCount).toNat ∧
    (∀ i, i < ids.length → shuffled[i]?.isSome = true) := by
  obtain ⟨h1, h2, h3⟩ := (validateRoleSettings_none_iff s (ids.length : Int)).mp hvalid
  have heq := buildRoles_valid_eq s ids.length h1 h2 h3
  have hlen : shuffled.length = ids.length := by
    rw [hperm.length_eq, heq]
    simp only [List.length_append, List.length_replicate]
    omega
  refine ⟨hlen, ?_, ?_, ?_, ?_, ?_⟩
  · rw [hperm.count_eq, heq]
    simp +decide [List.count_append, List.count_replicate]
  · rw [hperm.count_eq, heq]
    simp +decide [List.count_append, List.count_replicate]
  · rw [hperm.count_eq, heq]
    simp +decide [List.count_append, List.count_replicate]
  · rw [hperm.count_eq, heq]
    simp +decide [List.count_append, List.count_replicate]
  · intro i hi
    have hi2 : i < shuffled.length := by omega
    rw [List.getElem?_eq_getElem hi2]
    rfl

/-- Witness for C8 at 5 players with settings `{2 Mafia, 1 Detective,
1 Doctor}` (the identity shuffle): 2 Mafia, length 5. -/
theorem assign_roles_spec_witness :
    (buildRoles { mafiaCount := 2, detectiveCount := 1, doctorCount := 1, villagerCount := 0 } 5).count Role.Mafia = 2 ∧
    (buildRoles { mafiaCount := 2, detectiveCount := 1, doctorCount := 1, villagerCount := 0 } 5).length = 5 := by
  have h := assign_roles_spec ["p1", "p2", "p3", "p4", "p5"]
    { mafiaCount := 2, detectiveCount := 1, doctorCount := 1, villagerCount := 0 }
    (buildRoles { mafiaCount := 2, detectiveCount := 1, doctorCount := 1, villagerCount := 0 } 5)
    (by decide) (List.Perm.refl _)
  exact ⟨h.2.1, h.1⟩

theorem socketFold_eq_acc (sid : String) :
    ∀ (l : List (String × Player)) (acc : Option String),
      (∀ kv ∈ l, kv.2.socketId ≠ sid) →
      l.foldl (fun acc kv => if kv.2.socketId = sid then some kv.1 else acc) acc = acc := by
  intro l
  induction l with
  | nil => intro acc _; rfl
  | cons kv rest ih =>
    intro acc h
    simp only [List.foldl_cons]
    rw [if_neg (h kv (List.mem_cons_self _ _))]
    exact ih acc fun kv2 h2 => h kv2 (List.mem_cons_of_mem _ h2)

/-- Concrete one-player room used for C9: player "P1" holds socket "S". -/
def c9Game : Game :=
  { players :=
      [("P1", { playerId := "P1", socketId := "S", name := "Old",
                role := some Role.Villager, alive := true, ready := true, joinedAt := 0 })]
    status := Status.waiting
    phase := none
    nightActions := []
    votes := []
    hostId := "P1"
    lastActive := 0
    createdAt := 0
    roleSettings := getDefaultRoleSettings }

/-- C9 counterexample. A join with an *omitted* playerId arriving on a
socket already bound to a player of the room creates no new player at
all: the socket-id match takes precedence, so the existing player "P1" is
renamed and the freshly minted id "FRESH" is never added — contradicting
"a join with an unknown or omitted playerId creates exactly one new
Player". -/
theorem join_contract_counterexample :
    (createOrJoinRoom (some c9Game) "S" "Neo" none "FRESH" 7).1.players.length = 1 ∧
    alookup "FRESH" (createOrJoinRoom (some c9Game) "S" "Neo" none "FRESH" 7).1.players =
      none ∧
    (alookup "P1" (createOrJoinRoom (some c9Game) "S" "Neo" none "FRESH" 7).1.players).map
      Player.name = some "Neo" := by
  decide

/-- C9 (amended). Join contract: provided no player of the room
already holds the joining connection's socket id, a join with an unknown
(or omitted, hence freshly minted) playerId appends exactly one new
Player with `ready = false`, `alive = true`, `role = null`; a join with a
known playerId updates only that player's connection reference and name
(`ready`/`role`/`alive` untouched) and changes neither the player count
nor the key set.  If some player does hold the socket id, that player is
updated instead and no entry is created.  In particular a join with a
known playerId never creates a duplicate entry. -/
theorem join_contract_amended (g : Game) (socketId name : String)
    (pidOpt : Option String) (freshId : String) (now : Nat) :
    ((∀ kv ∈ g.players, kv.2.socketId ≠ socketId) →
      alookup (resolvePlayerId pidOpt freshId) g.players = none →
      (createOrJoinRoom (some g) socketId name pidOpt freshId now).1.players =
        g.players ++ [(resolvePlayerId pidOpt freshId,
          ⟨resolvePlayerId pidOpt freshId, socketId, sanitizeName name,
            none, true, false, now⟩)]) ∧
    ((∀ kv ∈ g.players, kv.2.socketId ≠ socketId) →
      ∀ p, alookup (resolvePlayerId pidOpt freshId) g.players = some p →
      (createOrJoinRoom (some g) socketId name pidOpt freshId now).1.players =
        aupdate (resolvePlayerId pidOpt freshId)
          (fun q => { q with socketId := socketId, name := sanitizeName name }) g.players ∧
      alookup (resolvePlayerId pidOpt freshId)
          (createOrJoinRoom (some g) socketId name pidOpt freshId now).1.players =
        some { p with socketId := socketId, name := sanitizeName name } ∧
      (createOrJoinRoom (some g) socketId name pidOpt freshId now).1.players.length =
        g.players.length) ∧
    (∀ epid,
      g.players.foldl (fun acc kv =>
        if kv.2.socketId = socketId then some kv.1 else acc) none = some epid →
      (createOrJoinRoom (some g) socketId name pidOpt freshId now).1.players.length =
        g.players.length ∧
      (createOrJoinRoom (some g) socketId name pidOpt freshId now).1.players.map Prod.fst =
        g.players.map Prod.fst) ∧
    ((alookup (resolvePlayerId pidOpt freshId) g.players).isSome = true →
      (createOrJoinRoom (some g) socketId name pidOpt freshId now).1.players.length =
        g.players.length ∧
      (createOrJoinRoom (some g) socketId name pidOpt freshId now).1.players.map Prod.fst =
        g.players.map Prod.fst) := by
  refine ⟨?_, ?_, ?_, ?_⟩
  · intro hnosock hnew
    unfold createOrJoinRoom
    dsimp only
    rw [socketFold_eq_acc socketId g.players none hnosock]
    dsimp only
    rw [hnew]
    rfl
  · intro hnosock p hknown
    unfold createOrJoinRoom
    dsimp only
    rw [socketFold_eq_acc socketId g.players none hnosock]
    dsimp only
    rw [if_pos (show (alookup (resolvePlayerId pidOpt freshId) g.players).isSome = true by
      rw [hknown]; rfl)]
    refine ⟨rfl, ?_, ?_⟩
    · rw [alookup_aupdate, if_pos rfl, hknown]
      rfl
    · exact aupdate_length _ _ _
  · intro epid hsock
    unfold createOrJoinRoom
    dsimp only
    rw [hsock]
    dsimp only
    exact ⟨aupdate_length _ _ _, aupdate_keys _ _ _⟩
  · intro hknown
    unfold createOrJoinRoom
    dsimp only
    cases hsock : g.players.foldl (fun acc kv =>
        if kv.2.socketId = socketId then some kv.1 else acc) none with
    | some epid =>
      dsimp only
      exact ⟨aupdate_length _ _ _, aupdate_keys _ _ _⟩
    | none =>
      dsimp only
      rw [if_pos hknown]
      exact ⟨aupdate_length _ _ _, aupdate_keys _ _ _⟩

/-- Witness for the amended C9: a join on a fresh socket with the unknown
playerId "N" appends exactly one new player with `ready = false`,
`alive = true`, `role = null`. -/
theorem join_contract_amended_witness :
    (createOrJoinRoom (some c9Game) "S2" "Ann" (some "N") "F2" 9).1.players =
      c9Game.players ++
        [("N", ⟨"N", "S2", "Ann", none, true, false, 9⟩)] :=
  (join_contract_amended c9Game "S2" "Ann" (some "N") "F2" 9).1 (by decide) (by decide)

/-- Concrete waiting room used for C10: player "A" exists and is alive,
but the phase is not night, so a night action violates its precondition. -/
def c10Game : Game :=
  { players :=
      [("A", { playerId := "A", socketId := "sA", name := "Ann",
               role := none, alive := true, ready := false, joinedAt := 0 })]
    status := Status.waiting
    phase := none
    nightActions := []
    votes := []
    hostId := "A"
    lastActive := 0
    createdAt := 0
    roleSettings := getDefaultRoleSettings }

/-- A registry holding the single room "R1" (used for C10's isolation
clause). -/
def c10Registry : Registry :=
  [("R1", c10Game)]

/-- C10 counterexample. A night action submitted outside the night
phase violates its precondition, and the handler drops it *silently*:
the room state is unchanged but *no* error message of any kind is sent to
the sender (the source only writes a `console.log`) — contradicting "no
precondition violation is dropped without any error being sent to the
sender". -/
theorem error_policy_counterexample :
    c10Game.phase ≠ some Phase.night ∧
    (alookup "A" c10Game.players).isSome = true ∧
    nightAction (some c10Game) "A" "kill" "B" 0 = (some c10Game, []) := by
  decide

/-- C10 (amended). Error policy: whenever `nightAction`, `dayVote` or
`playerReady` does not take its success path, the room state is left
exactly unchanged and at most one error message is emitted, only ever to
the originating connection — but several violations (wrong phase, unknown
room or player, dead actor) are dropped silently with no error sent at
all; only the duplicate night action produces an error.  No handler run
affects any registry key other than the normalized one it addresses. -/
theorem error_policy_amended :
    (∀ (gOpt : Option Game) (pid aT tId : String) (now : Nat),
      ((nightAction gOpt pid aT tId now).1 = gOpt ∧
        ((nightAction gOpt pid aT tId now).2 = [] ∨
          ∃ m, (nightAction gOpt pid aT tId now).2 = [Out.toSender (Event.errorMsg m)])) ∨
      (∃ g p, gOpt = some g ∧ g.phase = some Phase.night ∧
        alookup pid g.players = some p ∧ p.alive = true ∧
        alookup pid g.nightActions = none)) ∧
    (∀ (gOpt : Option Game) (pid tId : String) (now : Nat),
      ((dayVote gOpt pid tId now).1 = gOpt ∧ (dayVote gOpt pid tId now).2 = []) ∨
      (∃ g p, gOpt = some g ∧ g.phase = some Phase.day ∧
        alookup pid g.players = some p ∧ p.alive = true)) ∧
    (∀ (gOpt : Option Game) (pid : String) (rd : Bool) (now : Nat),
      ((playerReady gOpt pid rd now).1 = gOpt ∧ (playerReady gOpt pid rd now).2 = []) ∨
      (∃ g p, gOpt = some g ∧ alookup pid g.players = some p)) ∧
    (∀ (roomId : String) (h : Option Game → Option Game × List Out)
        (r : Registry) (k : String), k ≠ safeRoomId roomId →
      alookup k (onRegistry roomId h r).1 = alookup k r) := by
  refine ⟨?_, ?_, ?_, ?_⟩
  · intro gOpt pid aT tId now
    match gOpt with
    | none => exact Or.inl ⟨rfl, Or.inl rfl⟩
    | some g =>
      cases hp : alookup pid g.players with
      | none =>
        have hres : nightAction (some g) pid aT tId now = (some g, []) := by
          unfold nightAction
          dsimp only
          rw [hp]
        exact Or.inl ⟨by rw [hres], Or.inl (by rw [hres])⟩
      | some p =>
        by_cases hcond : g.phase ≠ some Phase.night ∨ p.alive = false
        · have hres : nightAction (some g) pid aT tId now = (some g, []) := by
            unfold nightAction
            dsimp only
            rw [hp]
            dsimp only
            rw [if_pos hcond]
          exact Or.inl ⟨by rw [hres], Or.inl (by rw [hres])⟩
        · push_neg at hcond
          by_cases hdup : (alookup pid g.nightActions).isSome = true
          · have hres : nightAction (some g) pid aT tId now =
                (some g, [Out.toSender (Event.errorMsg
                  "You've already submitted your action for this night.")]) := by
              unfold nightAction
              dsimp only
              rw [hp]
              dsimp only
              rw [if_neg (by simp [hcond.1, hcond.2]), if_pos hdup]
            exact Or.inl ⟨by rw [hres], Or.inr ⟨_, by rw [hres]⟩⟩
          · exact Or.inr ⟨g, p, rfl, hcond.1,
              hp, Bool.ne_false_iff.mp hcond.2,
              Option.not_isSome_iff_eq_none.mp hdup⟩
  · intro gOpt pid tId now
    match gOpt with
    | none => exact Or.inl ⟨rfl, rfl⟩
    | some g =>
      cases hp : alookup pid g.players with
      | none =>
        have hres : dayVote (some g) pid tId now = (some g, []) := by
          unfold dayVote
          dsimp only
          rw [hp]
        exact Or.inl ⟨by rw [hres], by rw [hres]⟩
      | some p =>
        by_cases hcond : g.phase ≠ some Phase.day ∨ p.alive = false
        · have hres : dayVote (some g) pid tId now = (some g, []) := by
            unfold dayVote
            dsimp only
            rw [hp]
            dsimp only
            rw [if_pos hcond]
          exact Or.inl ⟨by rw [hres], by rw [hres]⟩
        · push_neg at hcond
          exact Or.inr ⟨g, p, rfl, hcond.1, hp,
            Bool.ne_false_iff.mp hcond.2⟩
  · intro gOpt pid rd now
    match gOpt with
    | none => exact Or.inl ⟨rfl, rfl⟩
    | some g =>
      cases hp : alookup pid g.players with
      | none =>
        have hres : playerReady (some g) pid rd now = (some g, []) := by
          unfold playerReady
          dsimp only
          rw [if_pos (by simp [hp])]
        exact Or.inl ⟨by rw [hres], by rw [hres]⟩
      | some p => exact Or.inr ⟨g, p, rfl, hp⟩
  · intro roomId h r k hk
    unfold onRegistry
    dsimp only
    cases hres : (h (alookup (safeRoomId roomId) r)).1 with
    | none =>
      show alookup k (setRoom (safeRoomId roomId) none r) = alookup k r
      unfold setRoom
      exact alookup_filter_ne k (safeRoomId roomId) r hk
    | some g' =>
      show alookup k (setRoom (safeRoomId roomId) (some g') r) = alookup k r
      unfold setRoom
      exact alookup_aupsert_ne k (safeRoomId roomId) g' r fun hh => hk hh.symm

/-- Witness for the amended C10: running a handler against room id "" of
the registry `c10Registry` leaves the unrelated key "R1" untouched. -/
theorem error_policy_amended_witness :
    alookup "R1" (onRegistry "" (fun go => (go, [])) c10Registry).1 =
      alookup "R1" c10Registry :=
  error_policy_amended.2.2.2 "" (fun go => (go, [])) c10Registry "R1" (by decide)

end MafiaServer
